import Mathlib

/-!
A verification development for a repository that consists exclusively of nine
Jupyter notebooks documenting usage of the uxarray unstructured-grid toolkit.
Two of the six repository files bundle two notebooks each, so the nine
notebooks are: cross-sections, healpix, remapping, spatial-hashing,
custom-topology, dual-mesh, subsetting, weighted-mean and holoviz.

Each notebook is embedded below as a `Notebook` value holding the literal
source lines of every cell (code and markdown), transcribed from the notebook
JSON. The properties claimed about the repository are then settled as
decidable predicates over this embedding: which methods the code cells call,
which files they write and read, which top-level names they assign and
re-assign, and what the accompanying prose says.
-/

namespace UxNb

/-- A single notebook cell: whether it is a code cell, and its source lines
exactly as they appear in the notebook JSON (one string per physical line). -/
structure Cell where
  isCode : Bool
  src : List String
deriving DecidableEq

/-- A notebook: a short identifying title and its ordered list of cells. -/
structure Notebook where
  title : String
  cells : List Cell
deriving DecidableEq

/-- Check that the first character list is a prefix of the second. -/
def matchesAt : List Char → List Char → Bool
  | [], _ => true
  | _ :: _, [] => false
  | p :: ps, c :: cs => p == c && matchesAt ps cs

/-- Check that `pat` occurs as a contiguous sublist of the second list. -/
def hasSub (pat : List Char) : List Char → Bool
  | [] => matchesAt pat []
  | c :: cs => matchesAt pat (c :: cs) || hasSub pat cs

/-- Check that the string `pat` occurs as a substring of the line `l`. -/
def lineHas (pat l : String) : Bool := hasSub pat.toList l.toList

/-- Check that the string `pat` is a prefix of the line `l`. -/
def lineStartsWith (pat l : String) : Bool := matchesAt pat.toList l.toList

/-- Check that some source line of the cell contains `pat` as a substring.
None of the patterns used in this development spans a line break, so per-line
search is faithful. -/
def cellHas (pat : String) (c : Cell) : Bool := c.src.any (fun l => lineHas pat l)

/-- A Python import statement at the start of a line. -/
def isImportLine (l : String) : Bool :=
  lineStartsWith "\x69mport " l || lineStartsWith "from " l

/-- Character of a Python identifier. -/
def isIdentChar (c : Char) : Bool := c.isAlphanum || c == '_'

/-- Longest identifier prefix of a character list. -/
def takeIdent : List Char → List Char
  | [] => []
  | c :: cs => if isIdentChar c then c :: takeIdent cs else []

/-- Drop the longest identifier prefix of a character list. -/
def dropIdent : List Char → List Char
  | [] => []
  | c :: cs => if isIdentChar c then dropIdent cs else c :: cs

/-- Drop leading space characters. -/
def dropSpaces : List Char → List Char
  | ' ' :: cs => dropSpaces cs
  | cs => cs

/-- If the line is a top-level Python assignment (an identifier starting in
column 0, followed by a single `=` that is not `==`), return the assigned
name. Indented lines, keyword arguments inside calls, comparisons and tuple
targets are not reported. -/
def assignTarget (l : String) : Option String :=
  match l.toList with
  | [] => none
  | c :: cs =>
    if c.isAlpha || c == '_' then
      match dropSpaces (dropIdent cs) with
      | '=' :: '=' :: _ => none
      | '=' :: _ => some (String.mk (c :: takeIdent cs))
      | _ => none
    else none
/-- The `cross-sections` notebook of the repository, transcribed cell by cell. -/
def crossSections : Notebook :=
  ⟨"cross-sections", [
    ⟨false, [
      "# Cross-Sections",
      "",
      "This section demonstrates how to extract cross-sections from an unstructured grid using UXarray, which allows the analysis and visualization across slices of grids. Cross-sections can be performed directly on a \x60ux.Grid\x60 object or on a \x60ux.UxDataArray\x60"]⟩,
    ⟨true, [
      "\x69mport cartopy.crs as ccrs",
      "\x69mport geoviews as gv",
      "\x69mport geoviews.feature as gf",
      "",
      "\x69mport uxarray as ux",
      "",
      "projection = ccrs.Robinson()"]⟩,
    ⟨true, [
      "base_path = \"../../test/meshfiles/ugrid/outCSne30/\"",
      "grid_path = base_path + \"outCSne30.ug\"",
      "data_path = base_path + \"outCSne30_vortex.nc\"",
      "",
      "uxds = ux.open_dataset(grid_path, data_path)",
      "uxds[\"psi\"].plot(",
      "    cmap=\"inferno\",",
      "    periodic_elements=\"split\",",
      "    projection=projection,",
      "    title=\"Global Plot\",",
      ")"]⟩,
    ⟨false, [
      "## Constant Latitude",
      "",
      "Cross-sections along constant latitude lines can be obtained by using the  \x60\x60.cross_section.constant_latitude(lat)\x60\x60 method. The sliced grid will be made up of the faces that contain at least one edge that intersects with a line of constant latitude."]⟩,
    ⟨false, [
      "For example, we can obtain a cross-section at 0 degrees latitude by doing the following:"]⟩,
    ⟨true, [
      "lat = 0",
      "",
      "uxda_constant_lat = uxds[\"psi\"].cross_section.constant_latitude(lat)"]⟩,
    ⟨false, [
      "Since the result is a new \x60\x60UxDataArray\x60\x60, we can directly plot the result to see the cross-section."]⟩,
    ⟨true, [
      "(",
      "    uxda_constant_lat.plot(",
      "        rasterize=False,",
      "        backend=\"bokeh\",",
      "        cmap=\"inferno\",",
      "        projection=projection,",
      "        global_extent=True,",
      "        coastline=True,",
      "        title=f\"Cross Section at \x7blat\x7d degrees latitude\",",
      "    )",
      "    * gf.grid(projection=projection)",
      ")"]⟩,
    ⟨false, [
      "You can also perform operations on the cross-section, such as taking the mean."]⟩,
    ⟨true, [
      "print(f\"Global Mean: \x7buxds[\x27psi\x27].data.mean()\x7d\")",
      "print(f\"Mean at \x7blat\x7d degrees lat: \x7buxda_constant_lat.data.mean()\x7d\")"]⟩,
    ⟨false, [
      "## Constant Longitude",
      "",
      "",
      "Cross-sections along constant longitude lines can be obtained using the \x60\x60.cross_section.constant_longitude(lon)\x60\x60 method. The sliced grid will be made up of the faces that contain at least one edge that intersects with a line of constant longitude."]⟩,
    ⟨true, [
      "lon = 90",
      "",
      "uxda_constant_lon = uxds[\"psi\"].cross_section.constant_longitude(lon)"]⟩,
    ⟨true, [
      "(",
      "    uxda_constant_lon.plot(",
      "        rasterize=False,",
      "        backend=\"bokeh\",",
      "        cmap=\"inferno\",",
      "        projection=projection,",
      "        global_extent=True,",
      "        coastline=True,",
      "        title=f\"Cross Section at \x7blon\x7d degrees longitude\",",
      "        periodic_elements=\"split\",",
      "    )",
      "    * gf.grid(projection=projection)",
      ")"]⟩,
    ⟨false, [
      "## Constant Latitude Interval",
      "",
      "Cross-sections between two lines of latitudes can be obtained using the \x60\x60.cross_section.constant_lats_interval(lats)\x60\x60 method. The sliced grid will contain faces that are strictly between the latitude interval."]⟩,
    ⟨true, [
      "lats = [-20, 20]",
      "",
      "uxda_constant_lat_interval = uxds[\"psi\"].cross_section.constant_latitude_interval(lats)"]⟩,
    ⟨true, [
      "(",
      "    uxda_constant_lat_interval.plot(",
      "        rasterize=False,",
      "        backend=\"bokeh\",",
      "        cmap=\"inferno\",",
      "        projection=projection,",
      "        global_extent=True,",
      "        coastline=True,",
      "        title=f\"Cross Section between \x7blats[0]\x7d and \x7blats[1]\x7d degrees latitude\",",
      "        periodic_elements=\"split\",",
      "    )",
      "    * gf.grid(projection=projection)",
      ")"]⟩,
    ⟨false, [
      "## Constant Longitude Interval",
      "",
      "Cross-sections between two lines of longitude can be obtained using the \x60\x60.cross_section.constant_lons_interval(lons)\x60\x60 method. The sliced grid will contain faces that are strictly between the longitude interval."]⟩,
    ⟨true, [
      "lons = [-25, 25]",
      "",
      "uxda_constant_lon_interval = uxds[\"psi\"].cross_section.constant_longitude_interval(lats)"]⟩,
    ⟨true, [
      "(",
      "    uxda_constant_lon_interval.plot(",
      "        rasterize=False,",
      "        backend=\"bokeh\",",
      "        cmap=\"inferno\",",
      "        projection=projection,",
      "        global_extent=True,",
      "        coastline=True,",
      "        title=f\"Cross Section between \x7blons[0]\x7d and \x7blons[1]\x7d degrees longitude\",",
      "        periodic_elements=\"split\",",
      "    )",
      "    * gf.grid(projection=projection)",
      ")"]⟩,
    ⟨false, [
      "## Arbitrary Great Circle Arc (GCA)"]⟩,
    ⟨false, [
      "\x60\x60\x60\x7bwarning\x7d",
      "Arbitrary great circle arc cross sections are not yet implemented.",
      "\x60\x60\x60"]⟩]⟩

/-- The `healpix` notebook of the repository, transcribed cell by cell. -/
def healpix : Notebook :=
  ⟨"healpix", [
    ⟨false, [
      "# Working with HEALPix Data",
      "",
      "In this notebook, we showcase how UXarray can be used with HEALPix data.",
      "* A brief overview into HEALPix",
      "* Representing a HEALPix grid in the UGRID conventions",
      "* Loading data that resides on HEALPix Grids"]⟩,
    ⟨true, [
      "\x69mport cartopy.crs as ccrs",
      "",
      "\x69mport uxarray as ux"]⟩,
    ⟨false, [
      "## What is HEALPix?",
      "",
      "The Hierarchical Equal Area isoLatitude Pixelisation (HEALPix) algorithm is a method for the pixelisation of the",
      "2-sphere. It has three defining qualities.",
      "- The sphere is hierarchically tessellated into curvilinear quadrilaterals",
      "- Areas of all pixels at a given resolution are identical",
      "- Pixels are distributed on lines of constant latitude",
      "",
      "\x60\x60\x60\x7bnote\x7d",
      "For more information on HEALPix, you can refer to [this excellent overview](https://easy.gems.dkrz.de/Processing/healpix/index.html#hierarchical-healpix-output) in DKRZ\x27s Easy Gems documentation.",
      "\x60\x60\x60",
      "",
      "",
      "",
      ""]⟩,
    ⟨false, [
      "## Representing a HEALPix Grid in the UGRID Conventions",
      "",
      "Most datasets loaded into **UXarray** come with a dedicated grid file. However, for HEALPix datasets, the underlying grid structure is inferred from the number of cells.",
      "",
      "For a HEALPix grid in a nested layout, the number of cells is defined by:",
      "",
      "$$",
      "N_\x7b\\text\x7bcells\x7d\x7d = 12 \\cdot z^4,",
      "$$",
      "",
      "where \x60z\x60 is the *zoom level*. A higher zoom level increases the effective resolution of the grid.",
      "",
      "The \x60\x60ux.Grid.from_healpix(zoom)\x60\x60 classmethod can be used to construct a \x60\x60ux.Grid\x60\x60 instance representing a HEALPix grid in the UGRID conventions.",
      "",
      "",
      ""]⟩,
    ⟨true, [
      "ux.Grid.from_healpix(zoom=3)"]⟩,
    ⟨false, [
      "By default, our \x60\x60Grid\x60\x60 will only contain the face coordinate values, which represent the HEALPix pixel locations. We can see this above with only the \x60\x60face_lon\x60\x60 and \x60\x60face_lat\x60\x60 variables populated.",
      "",
      "However, much of UXarray functionality requires the boundaries of each cell to be defined. This is represented using the following variables:",
      "- \x60\x60node_lon\x60\x60: Longitude of the corners of each cell",
      "- \x60\x60node_lat\x60\x60: Latitude of the corners of each cell",
      "- \x60\x60face_node_connectivity\x60\x60: The indices of the nodes that surround each face",
      "",
      "An optional parameter, \x60\x60pixels_only\x60\x60, is provided which can be set to \x60\x60True\x60\x60 if you require the boundaries to be computed upfront."]⟩,
    ⟨true, [
      "ux.Grid.from_healpix(zoom=3, pixels_only=False)"]⟩,
    ⟨false, [
      "However, even if you load in a HEALPix grid specifying that you do not want the connectivity upfront, they can still be constructed when desired because of UXarray\x27s internal design."]⟩,
    ⟨true, [
      "ux.Grid.from_healpix(zoom=3, pixels_only=True).face_node_connectivity"]⟩,
    ⟨false, [
      "### Grid-Agnostic Functionality",
      "",
      "Once loaded in, UXarray does not care about the underlying grid format, as it represents all formats in its unified UGRID-like convention. This means that all existing functionality is supported through the same UXarray inferface. Below are basic examples of plotting & remapping.",
      "",
      "#### Plotting",
      "",
      "By using UXarray\x27s plotting functionality, we can observe how increasing the \x60\x60zoom\x60\x60 level leads to a higher-resolution grid.",
      ""]⟩,
    ⟨true, [
      "(",
      "    ux.Grid.from_healpix(zoom=2).plot(",
      "        periodic_elements=\"split\", projection=ccrs.Orthographic(), title=\"zoom=2\"",
      "    )",
      "    + ux.Grid.from_healpix(zoom=3).plot(",
      "        periodic_elements=\"split\", projection=ccrs.Orthographic(), title=\"zoom=3\"",
      "    )",
      "    + ux.Grid.from_healpix(zoom=4).plot(",
      "        periodic_elements=\"split\", projection=ccrs.Orthographic(), title=\"zoom=4\"",
      "    )",
      ").cols(1)"]⟩,
    ⟨false, [
      "#### Remapping",
      "",
      "Below is a simple example of remapping UGRID data residing on a \x60\x60CSne30\x60\x60 grid to a HEALPix grid with a zoom level of 5."]⟩,
    ⟨true, [
      "source_uxds = ux.open_dataset(",
      "    \"../../test/meshfiles/ugrid/outCSne30/outCSne30.ug\",",
      "    \"../../test/meshfiles/ugrid/outCSne30/outCSne30_vortex.nc\",",
      ")",
      "",
      "# source data & grid",
      "source_uxds[\"psi\"].plot(",
      "    cmap=\"inferno\", projection=ccrs.Orthographic(), title=\"Source Data\"",
      ")",
      "",
      "# destination grid",
      "hp_grid = ux.Grid.from_healpix(zoom=5)"]⟩,
    ⟨false, [
      "Before remapping, we can plot our Source and Destination grids."]⟩,
    ⟨true, [
      "source_uxds.uxgrid.plot(",
      "    projection=ccrs.Orthographic(), title=\"Source Grid (CSne30)\"",
      ") + hp_grid.plot(projection=ccrs.Orthographic(), title=\"Destination Grid (HEALPix)\")"]⟩,
    ⟨false, [
      "We can now perform our remapping. In this case, we apply a simple nearest neighbor remapping."]⟩,
    ⟨true, [
      "psi_hp = source_uxds[\"psi\"].remap.nearest_neighbor(destination_grid=hp_grid)",
      "psi_hp"]⟩,
    ⟨false, [
      "Our original data variable now resides on our HEALPix grid."]⟩,
    ⟨true, [
      "psi_hp.plot(cmap=\"inferno\", projection=ccrs.Orthographic(), title=\"Remapped Data\")"]⟩,
    ⟨false, [
      "We can now chain together a few functions to convert our output from a UXarray Dataset to a NetCDF file, with the grid represented in the HEALPix format.",
      "- \x60to_dataset()\x60: Converts the \x60\x60ux.UxDataArray\x60\x60 to a \x60\x60ux.UxDataset\x60\x60",
      "- \x60to_xarray(grid_format=\"HEALPix\")\x60: Converts our \x60\x60ux.UxDataset\x60\x60 to a \x60\x60xr.Dataset\x60\x60 encoded in the HEALPix format.",
      "- \x60to_netcdf(\"psi_healpix.nc\")\x60: Saves our dataset to disk as a NetCDF file."]⟩,
    ⟨true, [
      "psi_hp.to_dataset().to_xarray(grid_format=\"HEALPix\").to_netcdf(\"psi_healpix.nc\")"]⟩,
    ⟨false, [
      "## Loading HEALPix Data",
      "",
      "",
      "In the remapping example above, we successfully remapped a data variable onto a HEALPix grid and saved it as a NetCDF file.",
      "",
      "UXarray extends Xarray\x27s \x60\x60Dataset\x60\x60 and \x60\x60DataArray\x60\x60 classes to provide grid-aware implementations.",
      "",
      "",
      "",
      "",
      "",
      "Using the example we generated above, we can load in data that is stored in the HEALPix format using the \x60\x60UxDataset.from_healpix()\x60\x60 classmethod."]⟩,
    ⟨true, [
      "uxds = ux.UxDataset.from_healpix(\"psi_healpix.nc\")",
      "uxds"]⟩,
    ⟨false, [
      "The interface above looks almost identical to what you would see if you loaded in the file directly with Xarray."]⟩,
    ⟨true, [
      "\x69mport xarray as xr",
      "",
      "xr.open_dataset(\"psi_healpix.nc\")"]⟩,
    ⟨false, [
      "However, there are a few noticeable differences and additions that streamline UXarray\x27s implementation and provide more context on what grid the data resides on:",
      "1. The \"Show Grid Information\" tab provides information on the underlying \x60\x60Grid\x60\x60 object that is attached via the \x60\x60.uxgrid\x60\x60 attribute",
      "2. The \x60\x60zoom\x60\x60 for HEALPix grids is automatically determined from the \x60\x60cells\x60\x60 dimension, with an appropriate \x60\x60Grid\x60\x60 constructed from that",
      "3The dimensions are renamed to match the UGRID conventions, with \x60\x60cells\x60\x60 being renamed to \x60\x60n_face\x60\x60 for the case of HEALPix grids",
      "",
      "We can then directly access our \x60\x60Grid\x60\x60 using the \x60\x60.uxgrid\x60\x60 attribute, allowing for grid-specific functionallity as described in the sections above.",
      "",
      ""]⟩,
    ⟨true, [
      "uxds.uxgrid"]⟩,
    ⟨false, [
      "## Future Work",
      "",
      "Support for the HEALPix format is still in its early stages. We welcome your suggestions and contributions! To get started, please check out our [Contributors Guide](https://uxarray.readthedocs.io/en/stable/contributing.html)."]⟩]⟩

/-- The `remapping` notebook of the repository, transcribed cell by cell. -/
def remapping : Notebook :=
  ⟨"remapping", [
    ⟨false, [
      "# Remapping"]⟩,
    ⟨false, [
      "Remapping, or commonly referred to as Regridding, is the process of taking data that resides on one grid and mapping it to another. Details on various remapping methods can be found [here](https://climatedataguide.ucar.edu/climate-tools/regridding-overview). This user guide section will cover the two native remapping methods that are supported by UXarray:",
      "",
      "* Nearest Neighbor",
      "* Inverse Distance Weighted"]⟩,
    ⟨true, [
      "\x69mport os",
      "\x69mport urllib.request",
      "\x69mport warnings",
      "from pathlib import Path",
      "",
      "\x69mport cartopy.crs as ccrs",
      "\x69mport geoviews.feature as gf",
      "\x69mport holoviews as hv",
      "",
      "\x69mport uxarray as ux",
      "",
      "warnings.filterwarnings(\"ignore\")",
      "",
      "hv.extension(\"bokeh\")",
      "",
      "features = gf.coastline(projection=ccrs.PlateCarree(), scale=\"50m\")"]⟩,
    ⟨false, [
      "### Simple Remapping Example"]⟩,
    ⟨false, [
      "Provided below is an example of remapping using a simple grid. A has data, B does not. We will remap to B from A."]⟩,
    ⟨true, [
      "grid_path = \"../../test/meshfiles/ugrid/quad-hexagon/grid.nc\"",
      "data_path = \"../../test/meshfiles/ugrid/quad-hexagon/data.nc\"",
      "destination_grid = \"../../test/meshfiles/ugrid/quad-hexagon/triangulated-grid.nc\"",
      "grid = ux.open_grid(destination_grid)",
      "uxds = ux.open_dataset(grid_path, data_path)",
      "(",
      "    uxds[\"t2m\"].plot(",
      "        colorbar=False,",
      "        cmap=ux.cmaps.sequential_green_blue,",
      "        title=\"Mesh with Data\",",
      "    )",
      "    * uxds.uxgrid.plot.edges(color=\"black\")",
      "    + grid.plot(colorbar=False, title=\"Mesh without Data\", color=\"black\")",
      ").cols(1)"]⟩,
    ⟨true, [
      "remapped_grid = uxds[\"t2m\"].remap.inverse_distance_weighted(",
      "    grid, k=3, remap_to=\"face centers\"",
      ")"]⟩,
    ⟨true, [
      "remapped_grid.plot(",
      "    colorbar=True,",
      "    cmap=ux.cmaps.sequential_green_blue,",
      "    title=\"Mesh With Remapped Data\",",
      ") * remapped_grid.uxgrid.plot.mesh(color=\"black\")"]⟩,
    ⟨false, [
      "### Data"]⟩,
    ⟨false, [
      "In this notebook, we are using two datasets with different resolutions (480km and 120km) from the MPAS Ocean Model. We will be remapping the bottomDepth variable, which measures the ocean depth."]⟩,
    ⟨true, [
      "hv.extension(\"matplotlib\")",
      "",
      "data_var = \"bottomDepth\"",
      "",
      "grid_filename_480 = \"oQU480.grid.nc\"",
      "data_filename_480 = \"oQU480.data.nc\"",
      "",
      "grid_filename_120 = \"oQU120.grid.nc\"",
      "data_filename_120 = \"oQU120.data.nc\"",
      "",
      "filenames = [grid_filename_480, data_filename_480, grid_filename_120, data_filename_120]",
      "",
      "for filename in filenames:",
      "    if not os.path.isfile(filename):",
      "        # downloads the files from Cookbook repo, if they haven\x27t been downloaded locally yet",
      "        url = f\"https://github.com/ProjectPythia/unstructured-grid-viz-cookbook/raw/main/meshfiles/\x7bfilename\x7d\"",
      "        _, headers = urllib.request.urlretrieve(url, filename=filename)",
      "",
      "",
      "file_path_dict = \x7b",
      "    \"480km\": [grid_filename_480, data_filename_480],",
      "    \"120km\": [grid_filename_120, data_filename_120],",
      "\x7d"]⟩,
    ⟨true, [
      "uxds_480 = ux.open_dataset(*file_path_dict[\"480km\"])",
      "uxds_120 = ux.open_dataset(*file_path_dict[\"120km\"])"]⟩,
    ⟨true, [
      "(",
      "    uxds_480[\"bottomDepth\"].plot(",
      "        title=\"Bottom Depth (480km)\",",
      "        cmap=ux.cmaps.sequential_blue,",
      "    )",
      "    * features",
      "    + uxds_120[\"bottomDepth\"].plot(",
      "        title=\"Bottom Depth (120km)\",",
      "        cmap=ux.cmaps.sequential_blue,",
      "    )",
      "    * features",
      ").cols(1).opts(fig_size=125)"]⟩,
    ⟨false, [
      "We can view the supported remapping methods by accessing the \x60.remap\x60 attribute that is part of a \x60UxDataArray\x60"]⟩,
    ⟨true, [
      "uxds_120[\"bottomDepth\"].remap"]⟩,
    ⟨false, [
      "### Nearest Neighbor"]⟩,
    ⟨false, [
      "Nearest Neighbor Remapping is a point-based method that uses the nearest neighbor from the source grid when assigning data to the destination grid. It is a distance-based approach that uses \x60kd_tree\x60 or \x60ball_tree\x60 to determine the distance between points. We can use the \x60UxDataArray.remap.nearest_neighbor()\x60 method, which takes in the following parameters:"]⟩,
    ⟨false, [
      "* \x60destination_grid\x60 is the grid object that is being remapped to.",
      "* \x60destination_obj\x60 is being deprecated and soon will no longer be used, it allows remapping to data arrays, grids, and datasets.",
      "* \x60remap_to\x60 specifies the location of the remapping, either to \x60nodes\x60, \x60face centers\x60, or \x60edge centers\x60.",
      "* \x60coord_type\x60 refers to what coordinate system to use, either \x60spherical\x60 or \x60cartesian\x60."]⟩,
    ⟨false, [
      "#### Upsampling"]⟩,
    ⟨false, [
      "We can remap from the 480km grid to the 120km one, which would perform an upsampling operation. Our \x60destination_obj\x60 will be our 120km mesh, and we will make sure to specify to do the remap to \x60face centers\x60. View the plots below to see a comparison of the original 120km mesh compared to the remapped one."]⟩,
    ⟨true, [
      "upsampling = uxds_480[\"bottomDepth\"].remap.nearest_neighbor(",
      "    uxds_120.uxgrid, remap_to=\"face centers\"",
      ")"]⟩,
    ⟨true, [
      "(",
      "    uxds_480[\"bottomDepth\"].plot(",
      "        title=\"Bottom Depth (480km)\", cmap=ux.cmaps.sequential_blue",
      "    )",
      "    * features",
      "    + upsampling.plot(",
      "        title=\"Remapped Bottom Depth (480km to 120km)\",",
      "        cmap=ux.cmaps.sequential_blue,",
      "    )",
      "    * features",
      "    + uxds_480[\"bottomDepth\"].plot(",
      "        title=\"Zoomed (480km)\",",
      "        xlim=(-10, 10),",
      "        ylim=(-5, 5),",
      "        cmap=ux.cmaps.sequential_blue,",
      "    )",
      "    * features",
      "    + upsampling.plot(",
      "        title=\"Zoomed Remap (480km to 120km)\",",
      "        xlim=(-10, 10),",
      "        ylim=(-5, 5),",
      "        cmap=ux.cmaps.sequential_blue,",
      "    )",
      "    * features",
      ").cols(1).opts(fig_size=125)"]⟩,
    ⟨false, [
      "As we can see, the nearest neighbor remap has successfully upsampled, going from a lower resolution to a higher resolution. Of course, since all the data is coming from the lower-resolution grid, it should be noted that no new information is being added, we are simply remapping data from a lower-resolution grid to a higher one. This can be observed in the result since multiple data points from the source grid are repeated in the destination grid."]⟩,
    ⟨false, [
      "#### Downsampling"]⟩,
    ⟨false, [
      "Now we can do the reverse, which is downsampling. We we go from a higher resolution (120km) to a lower one (480km). Once again comparision plots are found below, with a zoomed in version provided."]⟩,
    ⟨true, [
      "downsampling = uxds_120[\"bottomDepth\"].remap.nearest_neighbor(",
      "    uxds_480.uxgrid, remap_to=\"face centers\"",
      ")"]⟩,
    ⟨true, [
      "(",
      "    uxds_120[\"bottomDepth\"].plot(",
      "        title=\"Bottom Depth (120km)\", cmap=ux.cmaps.sequential_blue",
      "    )",
      "    * features",
      "    + downsampling.plot(",
      "        title=\"Remapped Bottom Depth (120km to 480km)\",",
      "        cmap=ux.cmaps.sequential_blue,",
      "    )",
      "    * features",
      "    + uxds_120[\"bottomDepth\"].plot(",
      "        title=\"Zoomed (120km)\",",
      "        xlim=(-10, 10),",
      "        ylim=(-5, 5),",
      "        cmap=ux.cmaps.sequential_blue,",
      "    )",
      "    * features",
      "    + downsampling.plot(",
      "        title=\"Zoomed Remap (120km to 480km)\",",
      "        xlim=(-10, 10),",
      "        ylim=(-5, 5),",
      "        cmap=ux.cmaps.sequential_blue,",
      "    )",
      "    * features",
      ").cols(1).opts(fig_size=125)"]⟩,
    ⟨false, [
      "As you can see, the two datasets here don\x27t look as similar as with the upsampling one. This is an important note, when you are downsampling, there will always be a loss of information. This is because there are many more data points in the source grid than in the destination grid."]⟩,
    ⟨false, [
      "### Inverse Distance Weighted"]⟩,
    ⟨false, [
      "Inverse distance weighted remapping assigns a value based on the weighted average of a specified number of nearby points. This gives a more smooth remapping than the nearest neighbor and helps decrease the chance of outliers. Unlike the nearest neighbor remapping, it constructs new values based on the values around it. "]⟩,
    ⟨false, [
      "For inverse distance weighted remapping the parameters are the same as nearest neighbor with the addition of two extra parameters we can use to change the remapping parameters.",
      "",
      "* \x60power\x60 controls how local or global the remapping is, the larger this value the less influence points that are further away have.",
      "* \x60k\x60 is the number of neighbors to use in the weighted average."]⟩,
    ⟨false, [
      "Using the same examples as before, we can see the differences between nearest neighbor and inverse distance weighted remapping."]⟩,
    ⟨false, [
      "#### Upsampling"]⟩,
    ⟨false, [
      "We will upsample from the 480km grid to 120km grid again. This time we will see that the results are a lot smoother, and that the 120km looks a lot more like it\x27s original dataset compared to when the nearest neighbor remap was used."]⟩,
    ⟨true, [
      "upsampling_idw = uxds_480[\"bottomDepth\"].remap.inverse_distance_weighted(",
      "    uxds_120.uxgrid, remap_to=\"face centers\"",
      ")"]⟩,
    ⟨true, [
      "(",
      "    uxds_480[\"bottomDepth\"].plot(",
      "        title=\"Bottom Depth (480km)\", cmap=ux.cmaps.sequential_blue",
      "    )",
      "    * features",
      "    + upsampling_idw.plot(",
      "        title=\"Remapped Bottom Depth (480km to 120km)\",",
      "        cmap=ux.cmaps.sequential_blue,",
      "    )",
      "    * features",
      "    + uxds_480[\"bottomDepth\"].plot(",
      "        title=\"Zoomed (480km)\",",
      "        xlim=(-10, 10),",
      "        ylim=(-5, 5),",
      "        cmap=ux.cmaps.sequential_blue,",
      "    )",
      "    * features",
      "    + upsampling_idw.plot(",
      "        title=\"Zoomed Remap (480km to 120km)\",",
      "        xlim=(-10, 10),",
      "        ylim=(-5, 5),",
      "        cmap=ux.cmaps.sequential_blue,",
      "    )",
      "    * features",
      ").cols(1).opts(fig_size=125)"]⟩,
    ⟨false, [
      "#### Downsampling"]⟩,
    ⟨false, [
      "Here we can see an example of downsampling with inverse distance weighted. It has less of a noticable difference compared to the nearest neighbor, however this may be due to the \x60k\x60 number and the default \x60power\x60 value used in the calculation. Depending on your graph and the scale difference, you may need to use different \x60k\x60 and \x60power\x60 values to achieve a smoother result. That will be discussed in the next secition."]⟩,
    ⟨true, [
      "downsampling_idw = uxds_120[\"bottomDepth\"].remap.inverse_distance_weighted(",
      "    uxds_480.uxgrid, remap_to=\"face centers\"",
      ")"]⟩,
    ⟨true, [
      "(",
      "    uxds_120[\"bottomDepth\"].plot(",
      "        title=\"Bottom Depth (120km)\", cmap=ux.cmaps.sequential_blue",
      "    )",
      "    * features",
      "    + downsampling_idw.plot(",
      "        title=\"Remapped Bottom Depth (120km to 480km)\",",
      "        cmap=ux.cmaps.sequential_blue,",
      "    )",
      "    * features",
      "    + uxds_120[\"bottomDepth\"].plot(",
      "        title=\"Zoomed (120km)\",",
      "        xlim=(-10, 10),",
      "        ylim=(-5, 5),",
      "        cmap=ux.cmaps.sequential_blue,",
      "    )",
      "    * features",
      "    + downsampling_idw.plot(",
      "        title=\"Zoomed Remap (120km to 480km)\",",
      "        xlim=(-10, 10),",
      "        ylim=(-5, 5),",
      "        cmap=ux.cmaps.sequential_blue,",
      "    )",
      "    * features",
      ").cols(1).opts(fig_size=125)"]⟩,
    ⟨false, [
      "#### \x60k\x60 and \x60power\x60 Parameter Comparisons"]⟩,
    ⟨false, [
      "The higher the \x60k\x60 value, the more neighbors used in the weights calculation. However, along simply changing the \x60k\x60 value may not have a large impact on the remapping, and you might also need to change the \x60power\x60 value, because the \x60power\x60 value changes how much influence a point has as it gets further away from the source point. Let\x27s use do two remaps, a high and low \x60power\x60 / \x60k\x60 value and see a side by side comparsion with downsampling."]⟩,
    ⟨true, [
      "downsampling_idw_low = uxds_120[\"bottomDepth\"].remap.inverse_distance_weighted(",
      "    uxds_480.uxgrid, remap_to=\"face centers\", power=1, k=2",
      ")",
      "downsampling_idw_high = uxds_120[\"bottomDepth\"].remap.inverse_distance_weighted(",
      "    uxds_480.uxgrid, remap_to=\"face centers\", power=5, k=128",
      ")"]⟩,
    ⟨true, [
      "(",
      "    downsampling_idw_low.plot(",
      "        title=\"Zoomed 480km (power=1, k=2)\",",
      "        xlim=(-10, 10),",
      "        ylim=(-5, 5),",
      "        cmap=ux.cmaps.sequential_blue,",
      "    )",
      "    * features",
      "    + downsampling_idw_high.plot(",
      "        title=\"Zoomed 480km (power=5, k=128)\",",
      "        xlim=(-10, 10),",
      "        ylim=(-5, 5),",
      "        cmap=ux.cmaps.sequential_blue,",
      "    )",
      "    * features",
      ").cols(1).opts(fig_size=125)"]⟩,
    ⟨false, [
      "Now we can do the same thing with an upsampling example:"]⟩,
    ⟨true, [
      "upsampling_idw_low = uxds_480[\"bottomDepth\"].remap.inverse_distance_weighted(",
      "    uxds_120.uxgrid, remap_to=\"face centers\", power=1, k=2",
      ")",
      "upsampling_idw_high = uxds_480[\"bottomDepth\"].remap.inverse_distance_weighted(",
      "    uxds_120.uxgrid, remap_to=\"face centers\", power=5, k=128",
      ")"]⟩,
    ⟨true, [
      "(",
      "    upsampling_idw_low.plot(",
      "        title=\"Zoomed 120km (power=1, k=2)\",",
      "        xlim=(-10, 10),",
      "        ylim=(-5, 5),",
      "        cmap=ux.cmaps.sequential_blue,",
      "    )",
      "    * features",
      "    + upsampling_idw_high.plot(",
      "        title=\"Zoomed 120km (power=5, k=128)\",",
      "        xlim=(-10, 10),",
      "        ylim=(-5, 5),",
      "        cmap=ux.cmaps.sequential_blue,",
      "    )",
      "    * features",
      ").cols(1).opts(fig_size=125)"]⟩,
    ⟨false, [
      "When we alter the \x60k\x60 and \x60power\x60 values during downsampling, we observe only minor effects. This is somewhat expected because downsampling involves transitioning from a grid with numerous faces to one where several faces are consolidated into one. Consequently, regardless of how many neighboring faces we consider, the impact remains limited, especially given the weighted calculation. ",
      "",
      "Conversely, during upsampling, the effects are much more pronounced. This is logical, considering that upsampling involves transitioning from a grid with fewer faces, where each face represents a larger area, to one where more faces are present, representing a smaller area per face. Therefore, adjusting from 2 neighbors to 128 leads to substantial changes because the additional faces encompase a much larger area, and by effect much more drastic changes in values."]⟩]⟩

/-- The `spatial-hashing` notebook of the repository, transcribed cell by cell. -/
def spatialHashing : Notebook :=
  ⟨"spatial-hashing", [
    ⟨false, [
      "# Spatial Hashing",
      "UXarray supports spatial hashing, which a fast search method for finding the face that a point lies within on an unstructured grid. This can be useful for building particle-in-cell interpolators for Lagrangian fluid flow analysis. "]⟩,
    ⟨true, [
      "\x69mport uxarray as ux"]⟩,
    ⟨false, [
      "For this example we will be using a simple hexagonal grid."]⟩,
    ⟨true, [
      "grid_path = \"../../test/meshfiles/ugrid/quad-hexagon/grid.nc\"",
      "uxgrid = ux.open_grid(grid_path)"]⟩,
    ⟨false, [
      "",
      "## SpatialHash",
      "UXarray \x60SpatialHash\x60 class provides an API for locating the unstructured grid faces that a list of $(x,y)$ points (in spherical coordinates) lie within. This search is conducted by relating unstructured grid faces and arbitrary physical positions to a uniformly spaced structured grid (the hash grid). The relationship between the unstructured grid elements and the hash grid is maintained in a hash table. ",
      "",
      "### Parameters",
      "The \x60SpatialHash\x60 class can be accessed through the \x60Grid.get_spatial_hash(reconstruct)\x60 method, which takes in the following parameters:",
      "* \x60reconstruct\x60 is a bool variable that allows the user to reconstruct the spatial hash structure. As default for performance, if a user calls \x60get_spatial_hash\x60 and a spatial hash structure has already been created, it will simply use that one. If \x60reconstruct\x60 is set to \x60True\x60, it will override this and reconstruct the spatial hash structure. The default parameter is \x60False\x60.",
      "",
      "",
      "### Constructing a Spatial Hash",
      "We can store the SpatialHash data structure in a variable, which allows us to access the spatial hash in a simple way for queries."]⟩,
    ⟨true, [
      "spatial_hash = uxgrid.get_spatial_hash(",
      "    reconstruct=\"False\",",
      ")"]⟩,
    ⟨false, [
      "### Query",
      "Now we can use that variable to query for the face that a point lies within in addition to its barycentric coordinates. The first parameter is the point from which to do the search, which must be in spherical coordinates."]⟩,
    ⟨true, [
      "face_ids, bcoords = uxgrid.get_spatial_hash().query([-0.1, -0.1])",
      "print(f\"face ids : \x7bface_ids\x7d\")",
      "print(f\"Barycentric Coordinates: \x7bbcoords\x7d\")"]⟩]⟩

/-- The `custom-topology` notebook of the repository, transcribed cell by cell. -/
def customTopology : Notebook :=
  ⟨"custom-topology", [
    ⟨false, [
      "# Custom Grid Topology",
      "",
      "This notebook will showcase how to construct UXarray data structures from custom grid topology information, including how to convert existing Xarray data structures to UXarray."]⟩,
    ⟨true, [
      "\x69mport numpy as np",
      "\x69mport xarray as xr",
      "",
      "\x69mport uxarray as ux"]⟩,
    ⟨false, [
      "## Minimal Grid Definition",
      "",
      "The UGRID conventions require a minimal set of variables for representing a 2D unstructured grid. ",
      "",
      "| **Variable**             | **Shape**                      | **Description**                                |",
      "|--------------------------|--------------------------------|------------------------------------------------|",
      "| \x60node_lon\x60               | \x60(n_node, )\x60                   | Longitude of the nodes that make up each face. |",
      "| \x60node_lat\x60               | \x60(n_node, )\x60                   | Latitude of the nodes that make up each face.  |",
      "| \x60face_node_connectivity\x60 | \x60(n_face, n_max_face_nodes])\x60   | Indices of the nodes that surround each face.  |"]⟩,
    ⟨false, [
      "## Fixed Face Sizes",
      "",
      "For grids where each face has the same number of nodes, such as strictly triangular grids, each row in the \x60face_node_connectivity\x60 array will contain the indices of nodes that surround each face, with no fill values. Below is an example of the node coordinates and connectivity required for representing a single triangle in the UGRID conventions."]⟩,
    ⟨true, [
      "node_lon = np.array([-20.0, 0.0, 20.0])",
      "node_lat = np.array([-10.0, 10.0, -10.0])",
      "face_node_connectivity = np.array(",
      "    [",
      "        [0, 1, 2],",
      "    ]",
      ")"]⟩,
    ⟨false, [
      "These variables can be passed directly into the \x60Grid.from_topology()\x60 class-method, which allows custom grid topology information. This is especially useful for cases where a specific grid format isn\x27t directly supported. "]⟩,
    ⟨true, [
      "uxgrid_tri = ux.Grid.from_topology(",
      "    node_lon=node_lon, node_lat=node_lat, face_node_connectivity=face_node_connectivity",
      ")"]⟩,
    ⟨true, [
      "uxgrid_tri.plot(title=\"Triangle\")"]⟩,
    ⟨false, [
      "## Mixed Face Sizes",
      "",
      "For grids where each face does not have the same number of nodes, the \x60face_node_connectivity\x60 array will have it\x27s final dimension (\x60n_max_face_nodes\x60) set to the largest element shape. For example, a grid with triangles and quadrialterals will have a final dimension of 4. Any element that has less than the maximum number of nodes will be padded with a fill value. The \x60face_node_connectivity\x60 array below showcases a basic grid with a single triangle and quadrilateral. Observe that the first row is set to \x60[0, 1, 2, -1]\x60, with the first three integers being the indices of the triangle corners, and the final value used as a fill value."]⟩,
    ⟨true, [
      "node_lon = np.array([-20.0, 0.0, 20.0, -20, -40])",
      "node_lat = np.array([-10.0, 10.0, -10.0, 10, -10])",
      "face_node_connectivity = np.array([[0, 1, 2, -1], [0, 1, 3, 4]])"]⟩,
    ⟨false, [
      "The \x60fill_value\x60 parameter must be passed in when working with a mixed topology grid. "]⟩,
    ⟨true, [
      "uxgrid_tri_quad = ux.Grid.from_topology(",
      "    node_lon=node_lon,",
      "    node_lat=node_lat,",
      "    face_node_connectivity=face_node_connectivity,",
      "    fill_value=-1,",
      ")"]⟩,
    ⟨true, [
      "uxgrid_tri_quad.plot(title=\"Triangle & Quad\")"]⟩,
    ⟨false, [
      "## Working with Existing Xarray Structures",
      "",
      "The previous examples showcase how to create a \x60Grid\x60 from custom topology. The follow sections will walk through how to match data to the \x60Grid\x60."]⟩,
    ⟨false, [
      "### \x60xr.DataArray\x60 to \x60ux.UxDataArray\x60",
      "",
      "Consider the previous example where we constructed the \x60uxgrid_tri\x60 grid, consisting of a single triangle. Below is an example \x60xr.DataArray\x60 containing four temperature values. "]⟩,
    ⟨true, [
      "xrda_temp = xr.DataArray(",
      "    name=\"temp\",",
      "    data=np.array(",
      "        [",
      "            [100, 105, 108, 109],",
      "        ]",
      "    ).T,",
      "    dims=[\"time\", \"cell\"],",
      ")",
      "xrda_temp"]⟩,
    ⟨false, [
      "The original dimension must be mapped to their UGRID equivalent. ",
      "",
      "| **Data Mapping** | **UGRID Dimension Name** |",
      "|------------------|--------------------------|",
      "| Faces            | n_face                   |",
      "| Edges            | n_edge                   |",
      "| Nodes            | n_node                   |",
      "",
      "",
      "In the example above, the \x60cell\x60 dimension corresponds to the faces of the grid, meaning we want to translate the dimension to \x60n_face\x60",
      ""]⟩,
    ⟨true, [
      "ugrid_dims = \x7b\"cell\": \"n_face\"\x7d"]⟩,
    ⟨false, [
      "The \x60UxDataArray.from_xarray()\x60 takes in a user-defined \x60Grid\x60 in addition to the original \x60xr.DataArray\x60 and UGRID dimension mapping and returns a \x60UxDataArray\x60"]⟩,
    ⟨true, [
      "uxda_temp = ux.UxDataArray.from_xarray(xrda_temp, uxgrid_tri, ugrid_dims)",
      "uxda_temp"]⟩,
    ⟨false, [
      "### \x60xr.Dataset\x60 to \x60ux.UxDataset\x60",
      "",
      "More commonly, you may have an entire \x60xr.Dataset\x60 that contains data variables. "]⟩,
    ⟨true, [
      "xrda_vorticity = xr.DataArray(",
      "    name=\"vorticity\",",
      "    data=np.array(",
      "        [",
      "            [1, 2, 3, 4],",
      "            [5, 6, 7, 8],",
      "            [9, 10, 11, 12],",
      "        ]",
      "    ).T,",
      "    dims=[\"time\", \"vertex\"],",
      ")"]⟩,
    ⟨false, [
      "In this example, we have a cell-centered \x60temp\x60 and vertex-centered \x60vorticity\x60 variable. "]⟩,
    ⟨true, [
      "ds = xr.Dataset(data_vars=\x7b\"temp\": xrda_temp, \"vorticity\": xrda_vorticity\x7d)",
      "ds"]⟩,
    ⟨false, [
      "We must now include an additional entry into our \x60ugrid_dims\x60 dictionary for our vertex-centered data variable."]⟩,
    ⟨true, [
      "ugrid_dims = \x7b\"cell\": \"n_face\", \"vertex\": \"n_node\"\x7d"]⟩,
    ⟨true, [
      "uxds = ux.UxDataset.from_xarray(ds=ds, uxgrid=uxgrid_tri, ugrid_dims=ugrid_dims)"]⟩,
    ⟨false, [
      "uxds now has two \x60UxDataArray\x60 objects, one for the cell-centered data \x60temp\x60 and one for the vertex-centered data \x60vorticity\x60. There are 4 time steps 0, 1, 2, and 3. Values for time step 0 are shown below."]⟩,
    ⟨true, [
      "uxds[\"vorticity\"][0]"]⟩]⟩

/-- The `dual-mesh` notebook of the repository, transcribed cell by cell. -/
def dualMesh : Notebook :=
  ⟨"dual-mesh", [
    ⟨false, [
      "# Dual Grid Construction"]⟩,
    ⟨false, [
      "A dual grid is a secondary grid built from a grid, by constructing new faces over the original grids nodes. One property of this means that if you take the dual grid of a dual grid, the orignal grid will be constructed. However, this will only work properly if the grid is not partial. UXarray allows the constructing of this dual grid on all three of our data structures using the following methods:",
      "",
      "* \x60Grid.get_dual()\x60",
      "* \x60UxDataArray.get_dual()\x60",
      "* \x60UxDataset.get_dual()\x60"]⟩,
    ⟨true, [
      "\x69mport warnings",
      "",
      "\x69mport cartopy.crs as ccrs",
      "",
      "\x69mport uxarray as ux",
      "",
      "warnings.filterwarnings(\"ignore\")"]⟩,
    ⟨true, [
      "file = \"../../test/meshfiles/mpas/QU/mesh.QU.1920km.151026.nc\"",
      "",
      "uxds = ux.open_dataset(file, file)"]⟩,
    ⟨false, [
      "## Computing the Dual Grid"]⟩,
    ⟨false, [
      "When computing the dual of a grid, the original grid is typically referred to as the \"Primal\" grid. The corner nodes of the Primal grid become the face centers of the Dual grid, and the face centers of the Primal grid become the corner nodes of the Dual grid. This means that variables that were originally face-centered on the Primal grid will be node-centered on the Dual grid, and vice versa. Using UXarray we can construct the dual mesh using \x60grid.compute_dual()\x60, which returns a new \x60Grid\x60 object."]⟩,
    ⟨true, [
      "grid = uxds.uxgrid"]⟩,
    ⟨true, [
      "dual = grid.get_dual()"]⟩,
    ⟨true, [
      "(",
      "    grid.plot(title=\"Primal Grid\", backend=\"bokeh\", projection=ccrs.Orthographic())",
      "    + dual.plot(title=\"Dual Grid\", backend=\"bokeh\", projection=ccrs.Orthographic())",
      ")"]⟩,
    ⟨true, [
      "(",
      "    grid.plot(backend=\"bokeh\", projection=ccrs.Orthographic(), color=\"red\")",
      "    * dual.plot(backend=\"bokeh\", projection=ccrs.Orthographic(), color=\"blue\")",
      ").opts(title=\"Primal (Red) & Dual (Blue) Grids\")"]⟩,
    ⟨false, [
      "## Computing the Dual Grid with Data"]⟩,
    ⟨false, [
      "We can also take a dual mesh of a \x60UxDataArray\x60. The concept for constructing the \x60Grid\x60 remains the same, and what is constructed will be identical. The difference is the data stored inside the \x60UxDataArray\x60 will be transfered with the dual mesh. The key differences is the location that the data is stored. The data transfer process works as follows:",
      "",
      "* Face centered data becomes node centered, as each face becomes a node in the dual mesh.",
      "* Node centered data becomes face centered, as each node becomes a face in the dual mesh.",
      "* Edge centered data remains unchanged, as the edge centers will remain in the same place, despite the edges themselves being different."]⟩,
    ⟨false, [
      "### Face Centered Data"]⟩,
    ⟨false, [
      "When constructing the dual mesh paired with a face centered variable, the data becomes node centered. We can then plot this using \x60topological_mean\x60 to get the dual data to the faces for proper visualization comparisions."]⟩,
    ⟨true, [
      "uxds_dual_face = uxds[\"latCell\"].get_dual()"]⟩,
    ⟨true, [
      "(",
      "    uxds[\"latCell\"].plot.polygons(",
      "        rasterize=True,",
      "        backend=\"matplotlib\",",
      "        title=\"Face centered data on Primal Mesh\",",
      "        cmap=ux.cmaps.sequential_green_blue,",
      "        projection=ccrs.Orthographic(),",
      "    )",
      "    + uxds_dual_face.topological_mean(destination=\"face\").plot.polygons(",
      "        rasterize=True,",
      "        backend=\"matplotlib\",",
      "        title=\"Node Centered Data on Dual Mesh\",",
      "        cmap=ux.cmaps.sequential_green_blue,",
      "        projection=ccrs.Orthographic(),",
      "    )",
      ").cols(1).opts(fig_size=125)"]⟩,
    ⟨false, [
      "### Node Centered Data"]⟩,
    ⟨false, [
      "When constructing the dual mesh paired with a node centered variable, the data becomes face centered. A benefit of computing the dual of a node centered variable is that it allows us to visualize the data as polygons."]⟩,
    ⟨true, [
      "uxds_dual_node = uxds[\"latVertex\"].get_dual()"]⟩,
    ⟨true, [
      "(",
      "    uxds[\"latVertex\"]",
      "    .topological_mean(destination=\"face\")",
      "    .plot.polygons(",
      "        rasterize=True,",
      "        backend=\"matplotlib\",",
      "        title=\"Face centered data on Primal Mesh\",",
      "        cmap=ux.cmaps.sequential_green_blue,",
      "        projection=ccrs.Orthographic(),",
      "    )",
      "    + uxds_dual_node.plot.polygons(",
      "        rasterize=True,",
      "        backend=\"matplotlib\",",
      "        title=\"Node Centered Data on Dual Mesh\",",
      "        cmap=ux.cmaps.sequential_green_blue,",
      "        projection=ccrs.Orthographic(),",
      "    )",
      ").cols(1).opts(fig_size=125)"]⟩,
    ⟨false, [
      "### Edge Centered Data"]⟩,
    ⟨false, [
      "When constructing the dual mesh paired with an edge centered variable, the data will stay edge centered. However, a plotting example cannot be shown, as the \x60topological_mean\x60 needed to visualize edge centered data is not currently implemented for edge centered data."]⟩,
    ⟨false, [
      "### UxDataset"]⟩,
    ⟨false, [
      "We can also construct a dual mesh from an entire dataset, which will convert the whole \x60UxDataset\x60 to its dual mesh form. Below we can see the dataset before the dual mesh is constructed."]⟩,
    ⟨true, [
      "uxds"]⟩,
    ⟨false, [
      "Now we can construct the dual and see the new dataset that is returned."]⟩,
    ⟨true, [
      "uxds_dual = uxds.get_dual()"]⟩,
    ⟨true, [
      "uxds_dual"]⟩,
    ⟨false, [
      "As you can see, transforms the whole dataset. We can now take any variable and plot it, as shown below."]⟩,
    ⟨true, [
      "uxds_dual[\"latVertex\"].plot.polygons(",
      "    rasterize=True,",
      "    backend=\"matplotlib\",",
      "    title=\"latVertex from UxDataset dual mesh\",",
      "    cmap=ux.cmaps.sequential_green_blue,",
      "    projection=ccrs.Orthographic(),",
      ").opts(fig_size=120)"]⟩]⟩

/-- The `subsetting` notebook of the repository, transcribed cell by cell. -/
def subsetting : Notebook :=
  ⟨"subsetting", [
    ⟨false, [
      "# Subsetting",
      "",
      "When working with large grids, it is often desired to obtain a smaller version, typically zoomed into a region of interest. UXarray supports this through grid-informed subsetting operations. This section will discuss the types of ways to subset a grid:",
      "1. Nearest Neighbor",
      "2. Bounding Box",
      "3. Bounding Circle"]⟩,
    ⟨true, [
      "\x69mport warnings",
      "",
      "\x69mport cartopy.crs as ccrs",
      "\x69mport geocat.datafiles as geodf",
      "\x69mport geoviews.feature as gf",
      "\x69mport holoviews as hv",
      "",
      "\x69mport uxarray as ux",
      "",
      "plot_opts = \x7b\"width\": 700, \"height\": 350\x7d",
      "hv.extension(\"bokeh\")",
      "warnings.filterwarnings(\"ignore\")"]⟩,
    ⟨false, [
      "## Data",
      "",
      "In this example, we will be using the \x60geocat-datafiles\x60 package to obtain our grid and data files. The dataset used in this example is a 30km global MPAS meshes. We will be investigating the relative humidity vertically interpolated to 200hPa (\x60relhum200hPa\x60) data variable."]⟩,
    ⟨true, [
      "datafiles = (",
      "    geodf.get(",
      "        \"netcdf_files/MPAS/FalkoJudt/dyamond_1/30km/diag.2016-08-20_00.00.00_subset.nc\"",
      "    ),",
      "    geodf.get(\"netcdf_files/MPAS/FalkoJudt/dyamond_1/30km/x1.655362.grid_subset.nc\"),",
      ")"]⟩,
    ⟨true, [
      "uxds = ux.open_dataset(datafiles[1], datafiles[0])"]⟩,
    ⟨true, [
      "clim = (uxds[\"relhum_200hPa\"][0].values.min(), uxds[\"relhum_200hPa\"][0].values.max())"]⟩,
    ⟨true, [
      "features = gf.coastline(",
      "    projection=ccrs.PlateCarree(), line_width=1, scale=\"50m\"",
      ") * gf.states(projection=ccrs.PlateCarree(), line_width=1, scale=\"50m\")"]⟩,
    ⟨false, [
      "## Global Grid",
      "",
      "Many unstructured grids, such as those from global climate models, span the entire surface of a sphere. UXarray supports working with these global grids, handling cases that arise with the spherical geometry of the earth (wrap around at the antimeridian, pole points, etc.)"]⟩,
    ⟨true, [
      "uxds[\"relhum_200hPa\"][0].plot(",
      "    rasterize=True, periodic_elements=\"exclude\", title=\"Global Grid\", **plot_opts",
      ") * features"]⟩,
    ⟨false, [
      "In addition to plotting global grids, we can perform analysis operations on the entire grid."]⟩,
    ⟨true, [
      "uxds[\"relhum_200hPa\"][0].values.mean()"]⟩,
    ⟨false, [
      "## Regional Subsets",
      "",
      "UXarray supports taking subsets of a grid, which allows us to select a region and perform analysis directly on that area, as opposed to the global grid.",
      "",
      "There are currently three supported subsetting methods, both for the \x60Grid\x60 and \x60UxDataArray\x60 data structures."]⟩,
    ⟨true, [
      "uxds[\"relhum_200hPa\"].subset"]⟩,
    ⟨true, [
      "uxds[\"relhum_200hPa\"].uxgrid.subset"]⟩,
    ⟨false, [
      "### Bounding Box",
      "",
      "We can declare a bounding box centered about the Chicago area by specifying the minimum and maximum longitude and latitude bounds."]⟩,
    ⟨true, [
      "lon_bounds = (-87.6298 - 2, -87.6298 + 2)",
      "lat_bounds = (41.8781 - 2, 41.8781 + 2)"]⟩,
    ⟨true, [
      "bbox_subset_nodes = uxds[\"relhum_200hPa\"][0].subset.bounding_box(",
      "    lon_bounds,",
      "    lat_bounds,",
      ")",
      "",
      "bbox_subset_nodes.plot(",
      "    rasterize=True,",
      "    periodic_elements=\"exclude\",",
      "    clim=clim,",
      "    title=\"Bounding Box Subset (Corner Node Query)\",",
      "    **plot_opts,",
      ") * features"]⟩,
    ⟨false, [
      "### Bounding Circle",
      "",
      "A bounding circle is defined using a center coordinate (lon, lat) and a radius (in degrees). The resulting subset will contain all elements within the radius of that circle."]⟩,
    ⟨true, [
      "center_coord = [-87.6298, 41.8781]",
      "",
      "r = 2"]⟩,
    ⟨true, [
      "bcircle_subset = uxds[\"relhum_200hPa\"][0].subset.bounding_circle(center_coord, r)",
      "",
      "bcircle_subset.plot(",
      "    rasterize=True,",
      "    periodic_elements=\"exclude\",",
      "    clim=clim,",
      "    title=\"Bounding Circle Subset\",",
      "    **plot_opts,",
      ") * features"]⟩,
    ⟨false, [
      "### Nearest Neighbor",
      "",
      "Similar to the bounding circle, we can perform a nearest neighbor subset at some center coordinate (lon, lat) and query for some number of elements \x60k\x60"]⟩,
    ⟨true, [
      "center_coord = [-87.6298, 41.8781]"]⟩,
    ⟨true, [
      "nn_subset = uxds[\"relhum_200hPa\"][0].subset.nearest_neighbor(",
      "    center_coord, k=30, element=\"nodes\"",
      ")",
      "",
      "nn_subset.plot(",
      "    rasterize=True,",
      "    periodic_elements=\"exclude\",",
      "    clim=clim,",
      "    title=\"Nearest Neighbor Subset (Query 30 closest nodes)\",",
      "    **plot_opts,",
      ") * features"]⟩,
    ⟨false, [
      "We can increase the number of neighbors \x60k\x60 to make the region larger."]⟩,
    ⟨true, [
      "nn_subset_120 = uxds[\"relhum_200hPa\"][0].subset.nearest_neighbor(",
      "    center_coord, k=120, element=\"face centers\"",
      ")",
      "",
      "nn_subset_120.plot(",
      "    rasterize=True,",
      "    periodic_elements=\"exclude\",",
      "    clim=clim,",
      "    title=\"Nearest Neighbor Subset (Query 120 Closest Faces)\",",
      "    **plot_opts,",
      ") * features"]⟩,
    ⟨false, [
      "When we set \x60\x60k=1\x60\x60, it selects the closest neighbor."]⟩,
    ⟨true, [
      "nn_subset_1 = uxds[\"relhum_200hPa\"][0].subset.nearest_neighbor(",
      "    center_coord, k=1, element=\"face centers\"",
      ")",
      "",
      "nn_subset_1.plot(",
      "    rasterize=True,",
      "    periodic_elements=\"exclude\",",
      "    clim=clim,",
      "    title=\"Nearest Neighbor Subset (Query Closest Face)\",",
      "    **plot_opts,",
      ") * features"]⟩,
    ⟨false, [
      "### Analysis Operators on Regional Subsets",
      "",
      "Since each subset is a newly initialized \x60\x60UxDataArray\x60\x60, paired also with a newly initialized \x60Grid\x60, we can perform analysis operators directly on these new objects.",
      "",
      "Looking back at the global mean that we computed earlier, we can compare it to the regional mean of the Bounding Box and Bounding Circle regions respectively."]⟩,
    ⟨true, [
      "print(\"Global Mean:            \", uxds[\"relhum_200hPa\"][0].values.mean())",
      "print(\"Bounding Box Mean:      \", bbox_subset_nodes.values.mean())",
      "print(\"Bounding Circle Mean:   \", bcircle_subset.values.mean())"]⟩,
    ⟨false, [
      "## Retrieving Orignal Grid Indices"]⟩,
    ⟨false, [
      "Sometimes having the original grids\x27 indices is useful. These indices can be stored within the subset with the \x60inverse_indices\x60 variable. This can be used to store the indices of the original face centers, edge centers, and node indices. This variable can be used within the subset as follows:",
      "",
      "* Passing in \x60True\x60, which will store the face center indices",
      "* Passing in a list of which indices to store, along with \x60True\x60, to indicate what kind of original grid indices to store.",
      "    * Options for which indices to select include: \x60face\x60, \x60node\x60, and \x60edge\x60",
      "",
      "This currently only works when the element is \x60face centers\x60. Elements \x60nodes\x60 and \x60edge centers\x60 will be supported in the future."]⟩,
    ⟨true, [
      "subset_grid = uxds[\"relhum_200hPa\"][0].subset.bounding_circle(",
      "    center_coord,",
      "    r,",
      "    element=\"face centers\",",
      "    inverse_indices=([\"face\", \"node\", \"edge\"], True),",
      ")"]⟩,
    ⟨false, [
      "These indices can be retrieve through the grid:"]⟩,
    ⟨true, [
      "subset_grid.uxgrid.inverse_indices"]⟩,
    ⟨false, [
      "## Determining if a Grid is a Subset"]⟩,
    ⟨false, [
      "To check if a Grid (or dataset using \x60.uxgrid\x60) is a subset, we can use \x60Grid.is_subset\x60, which will return either \x60True\x60 or \x60False\x60, depending on whether the \x60Grid\x60 is a subset. Since \x60subset_indices\x60 is a subset, using this feature we will return \x60True\x60:"]⟩,
    ⟨true, [
      "subset_grid.uxgrid.is_subset"]⟩,
    ⟨false, [
      "The file we have been using to create these subsets, \x60uxds\x60, is not a subset, so using the same call we will return \x60False:\x60"]⟩,
    ⟨true, [
      "uxds.uxgrid.is_subset"]⟩]⟩

/-- The `weighted-mean` notebook of the repository, transcribed cell by cell. -/
def weightedMean : Notebook :=
  ⟨"weighted-mean", [
    ⟨false, [
      "# Weighted Mean",
      "",
      "UXarray supports computing weighted means based on geometric properties such as face areas or edge lengths. In this section of the user guide, we explain how to calculate variable means using unstructured grid geometries as weights. The examples below demonstrate the application of weighted means using grid face areas and grid edge lengths as weights."]⟩,
    ⟨true, [
      "\x69mport warnings",
      "",
      "\x69mport cartopy.crs as ccrs",
      "\x69mport xarray as xr",
      "",
      "\x69mport uxarray as ux",
      "",
      "warnings.filterwarnings(\"ignore\")"]⟩,
    ⟨false, [
      "## Data",
      "",
      "Data used in this section is a 3-random-variable dataset on a quad hexagon mesh mapped to the edges and faces."]⟩,
    ⟨true, [
      "grid_path = \"../../test/meshfiles/ugrid/quad-hexagon/grid.nc\"",
      "quad_hex_data_path_edge_centered = (",
      "    \"../../test/meshfiles/ugrid/quad-hexagon/random-edge-data.nc\"",
      ")",
      "quad_hex_data_path_face_centered = (",
      "    \"../../test/meshfiles/ugrid/quad-hexagon/random-face-data.nc\"",
      ")",
      "",
      "uxds_face = ux.open_mfdataset(grid_path, quad_hex_data_path_face_centered)",
      "uxds_edge = ux.open_mfdataset(grid_path, quad_hex_data_path_edge_centered)"]⟩,
    ⟨true, [
      "(",
      "    uxds_face.uxgrid.plot(line_color=\"black\")",
      "    * uxds_edge[\"random_data_edge\"]",
      "    .plot.points(",
      "        cmap=\"inferno\", size=150, marker=\"square\", clabel=None, tools=[\"hover\"]",
      "    )",
      "    .relabel(\"Edge Data\")",
      "    * uxds_face[\"random_data_face\"]",
      "    .plot.points(",
      "        cmap=\"inferno\", size=150, marker=\"triangle\", clabel=None, tools=[\"hover\"]",
      "    )",
      "    .relabel(\"Face Data\")",
      ").opts(legend_position=\"top_right\")"]⟩,
    ⟨false, [
      "## Weighted Mean based on Face Areas",
      "",
      "Here we first look at the data values on each face and the faces\x27 respective areas. "]⟩,
    ⟨true, [
      "uxds_face[\"random_data_face\"].values"]⟩,
    ⟨false, [
      "We can simply call \x60UxDataArray.weighted_mean()\x60 on the UXDataArray to compute the weighted mean. The differences between the weighted mean and the regular mean is small since the area differences across the faces are small. "]⟩,
    ⟨true, [
      "result = uxds_face[\"random_data_face\"].weighted_mean()",
      "result.values"]⟩,
    ⟨true, [
      "unweighted_result = uxds_face[\"random_data_face\"].mean()",
      "unweighted_result.values"]⟩,
    ⟨false, [
      "## Weighted Mean Based on Edge Length",
      "",
      "Here we show the similar steps but for edge-centered data and the edge lengths. "]⟩,
    ⟨true, [
      "uxds_edge[\"random_data_edge\"].values"]⟩,
    ⟨true, [
      "uxds_edge.uxgrid.edge_node_distances.data"]⟩,
    ⟨false, [
      "The differences between weighted and unweighted mean is more drastic (~0.1 value difference) since the edge lengths have a larger variance. "]⟩,
    ⟨true, [
      "result = uxds_edge[\"random_data_edge\"].weighted_mean()",
      "result.values"]⟩,
    ⟨true, [
      "unweighted_result = uxds_edge[\"random_data_edge\"].mean()",
      "unweighted_result.values"]⟩]⟩

/-- The `holoviz` notebook of the repository, transcribed cell by cell. -/
def holoviz : Notebook :=
  ⟨"holoviz", [
    ⟨false, [
      "# Compatibility with HoloViz Tools",
      "",
      "This user guide section showcases how UXarray data structures (\x60Grid\x60, \x60UxDataArray\x60) can be converted in a Spatialpandas \x60GeoDataFrame\x60, which can be used directly by packages from the HoloViz stack, such as hvPlot, Datashader, Holoviews, and Geoviews. In addition to showing how to convert to a \x60GeoDataFrame\x60, a series of visualizations using hvPlot and GeoViews is showcased based around the converted data structure.",
      ""]⟩,
    ⟨true, [
      "\x69mport warnings",
      "",
      "\x69mport holoviews as hv",
      "\x69mport hvplot.pandas",
      "\x69mport matplotlib",
      "\x69mport matplotlib.pyplot as plt",
      "\x69mport numpy as np",
      "",
      "\x69mport uxarray as ux",
      "",
      "warnings.filterwarnings(\"ignore\")"]⟩,
    ⟨false, [
      "## Data",
      "",
      "For this notebook, we will be using E3SM model output, which uses a cubed-sphere grid. However, this notebook can be adapted to datasets in any of our supported formats."]⟩,
    ⟨true, [
      "base_path = \"../../test/meshfiles/ugrid/outCSne30/\"",
      "grid_path = base_path + \"outCSne30.ug\"",
      "data_path = base_path + \"outCSne30_vortex.nc\"",
      "",
      "uxds = ux.open_dataset(grid_path, data_path)",
      "",
      "uxds"]⟩,
    ⟨false, [
      "## Conversion to \x60spatialpandas.GeoDataFrame\x60 for Visualization",
      "",
      "In order to support visualization with the popular HoloViz stack of libraries (hvPlot, HoloViews, Datashader, etc.), UXarray provides methods for converting \x60Grid\x60 and \x60UxDataArray\x60 objects into a SpatialPandas \x60GeoDataFrame\x60, which can be used for visualizing the nodes, edges, and polygons that represent each grid, in addition to data variables."]⟩,
    ⟨false, [
      "### \x60Grid\x60 Conversion",
      "",
      "If you wish to plot *only* the grid\x27s geometrical elements such as nodes and edges (i.e. without any data variables mapped to them), you can directly convert a \x60Grid\x60 instance into a \x60GeoDataFrame\x60.",
      "",
      "Each \x60UxDataset\x60 and \x60UxDataArray\x60 has a \x60Grid\x60 instance paired to it, which can be accessed using the \x60.uxgrid\x60 attribute.",
      "",
      "You can use the \x60Grid.to_geodataframe()\x60 method to construct a \x60GeoDataFrame\x60."]⟩,
    ⟨true, [
      "gdf_grid = uxds.uxgrid.to_geodataframe()",
      "gdf_grid"]⟩,
    ⟨false, [
      "### \x60UxDataArray\x60 & \x60UxDataset\x60 Conversion",
      "",
      "If you are interested in mapping data to each face, you can index the \x60UxDataset\x60 with the variable of interest (in this case \"psi\") to return the same \x60GeoDataFrame\x60 as above, but now with data mapped to each face.",
      "",
      "\x60\x60\x60\x7bwarning\x7d",
      "UXarray currently only supports mapping data variables that are mapped to each face. Variables that reside on the corner nodes or edges are currently not supported for visualization.",
      "\x60\x60\x60",
      ""]⟩,
    ⟨true, [
      "gdf_data = uxds[\"psi\"].to_geodataframe()",
      "gdf_data"]⟩,
    ⟨false, [
      "### Challenges with Representing Geoscience Data as Geometries",
      "",
      "When we convert to a \x60GeoDataFrame\x60, we internally represent the surface of a sphere as a collection of polygons over a 2D projection. However, this leads to issues around the Antimeridian (180 degrees east or west) where polygons are incorrectly constructed and have incorrect geometries. When constructing the \x60GeoDataFrame\x60, UXarray detects and corrects any polygon that touches or crosses the antimeridian. An array of indices of these faces can be accessed as part of the \x60Grid\x60 object.",
      "<br>",
      "",
      "<figure>",
      "<center><img src=\"https://upload.wikimedia.org/wikipedia/commons/thumb/8/8d/Earth_map_with_180th_meridian.jpg/640px-Earth_map_with_180th_meridian.jpg\" style=\"height: 300px; width:600px;\"/></center>",
      "<center><figcaption>Antimeridian Visual</figcaption></center>",
      "</figure>"]⟩,
    ⟨true, [
      "uxds.uxgrid.antimeridian_face_indices"]⟩,
    ⟨false, [
      "Taking a look at one of these faces that crosses or touches the antimeridian, we can see that it\x27s split across the antimeridian and represented as a \x60MultiPolygon\x60, which allows us to properly render this two dimensional grid."]⟩,
    ⟨true, [
      "gdf_data.geometry[uxds.uxgrid.antimeridian_face_indices[0]]"]⟩,
    ⟨false, [
      "For more details about the algorithm used for splitting these polygons, see the [Antimeridian Python Package](https://antimeridian.readthedocs.io/en/stable/), which we use internally for correcting polygons on the antimeridian."]⟩,
    ⟨false, [
      "## Visualizing Geometries",
      "",
      "The next sections will show how the \x60GeoDataFrame\x60 representing our unstructured grid can be used with hvPlot and GeoViews to generate visualizations. Examples using both the \x60matplotlib\x60 and \x60bokeh\x60 backends are shown, with \x60bokeh\x60 examples allowing for interactive plots.",
      "",
      ""]⟩,
    ⟨false, [
      "### Nodes"]⟩,
    ⟨true, [
      "# use matplotlib backend for rendering",
      "hv.extension(\"matplotlib\")",
      "",
      "plot_kwargs = \x7b",
      "    \"size\": 6.0,",
      "    \"xlabel\": \"Longitude\",",
      "    \"ylabel\": \"Latitude\",",
      "    \"coastline\": True,",
      "    \"width\": 1600,",
      "    \"title\": \"Node Plot (Matplotlib Backend)\",",
      "\x7d",
      "",
      "",
      "gdf_grid.hvplot.points(**plot_kwargs)"]⟩,
    ⟨true, [
      "# use bokeh backend for rendering",
      "hv.extension(\"bokeh\")",
      "",
      "plot_kwargs = \x7b",
      "    \"s\": 1.0,",
      "    \"xlabel\": \"Longitude\",",
      "    \"ylabel\": \"Latitude\",",
      "    \"coastline\": True,",
      "    \"frame_width\": 700,",
      "    \"title\": \"Node Plot (Bokeh Backend)\",",
      "\x7d",
      "",
      "gdf_grid.hvplot.points(**plot_kwargs)"]⟩,
    ⟨false, [
      "### Edges"]⟩,
    ⟨true, [
      "# use matplotlib backend for rendering",
      "hv.extension(\"matplotlib\")",
      "",
      "plot_kwargs = \x7b",
      "    \"linewidth\": 1.0,",
      "    \"xlabel\": \" Longitude\",",
      "    \"ylabel\": \"Latitude\",",
      "    \"coastline\": True,",
      "    \"width\": 1600,",
      "    \"title\": \"Edge Plot (Matplotlib Backend)\",",
      "    \"color\": \"black\",",
      "\x7d",
      "",
      "\x69mport cartopy.crs as ccrs",
      "",
      "gdf_grid.hvplot.paths(**plot_kwargs)"]⟩,
    ⟨true, [
      "# use bokeh backend for rendering",
      "hv.extension(\"bokeh\")",
      "",
      "plot_kwargs = \x7b",
      "    \"line_width\": 0.5,",
      "    \"xlabel\": \"Longitude\",",
      "    \"ylabel\": \"Latitude\",",
      "    \"coastline\": True,",
      "    \"frame_width\": 700,",
      "    \"title\": \"Edge Plot (Bokeh Backend)\",",
      "\x7d",
      "",
      "gdf_grid.hvplot.paths(**plot_kwargs)"]⟩,
    ⟨false, [
      "## Visualizing Data Variables"]⟩,
    ⟨true, [
      "hv.extension(\"matplotlib\")",
      "",
      "plot_kwargs = \x7b",
      "    \"c\": \"psi\",",
      "    \"cmap\": \"inferno\",",
      "    \"width\": 400,",
      "    \"height\": 200,",
      "    \"title\": \"Filled Polygon Plot (Matplotlib Backend, Rasterized)\",",
      "    \"xlabel\": \" Longitude\",",
      "    \"ylabel\": \"Latitude\",",
      "\x7d",
      "",
      "gdf_data.hvplot.polygons(**plot_kwargs, rasterize=True)"]⟩,
    ⟨false, [
      "\x60\x60\x60\x7bnote\x7d",
      "Visualizing filled polygons without rasterization using the matplotlib backend produces incorrect results, see [hvplot/#1099](https://github.com/holoviz/hvplot/issues/1099)",
      "\x60\x60\x60"]⟩,
    ⟨true, [
      "hv.extension(\"bokeh\")",
      "",
      "plot_kwargs = \x7b",
      "    \"c\": \"psi\",",
      "    \"cmap\": \"inferno\",",
      "    \"line_width\": 0.1,",
      "    \"frame_width\": 500,",
      "    \"frame_height\": 250,",
      "    \"xlabel\": \" Longitude\",",
      "    \"ylabel\": \"Latitude\",",
      "\x7d",
      "",
      "gdf_data.hvplot.polygons(**plot_kwargs, rasterize=True)",
      "",
      "hv.Layout(",
      "    gdf_data.hvplot.polygons(**plot_kwargs, rasterize=True).opts(",
      "        title=\"Filled Polygon Plot (Bokeh Backend, Rasterized)\"",
      "    )",
      "    + gdf_data.hvplot.polygons(**plot_kwargs, rasterize=False).opts(",
      "        title=\"Filled Polygon Plot (Bokeh Backend, Vector)\"",
      "    )",
      ").cols(1)"]⟩,
    ⟨false, [
      "## Geographic Projections",
      ""]⟩,
    ⟨true, [
      "hv.extension(\"matplotlib\")",
      "",
      "plot_kwargs = \x7b",
      "    \"c\": \"psi\",",
      "    \"cmap\": \"inferno\",",
      "    \"width\": 400,",
      "    \"height\": 200,",
      "    \"title\": \"Filled Polygon Plot (Matplotlib Backend, Rasterized, Orthographic Projection)\",",
      "    \"xlabel\": \" Longitude\",",
      "    \"ylabel\": \"Latitude\",",
      "\x7d",
      "",
      "gdf_data.hvplot.polygons(**plot_kwargs, rasterize=True, projection=ccrs.Orthographic())"]⟩,
    ⟨true, [
      "hv.extension(\"matplotlib\")",
      "",
      "plot_kwargs = \x7b",
      "    \"c\": \"psi\",",
      "    \"cmap\": \"inferno\",",
      "    \"width\": 400,",
      "    \"height\": 200,",
      "    \"title\": \"Filled Polygon Plot (Matplotlib Backend, Rasterized, Robinson Projection)\",",
      "    \"xlabel\": \" Longitude\",",
      "    \"ylabel\": \"Latitude\",",
      "\x7d",
      "",
      "gdf_data.hvplot.polygons(**plot_kwargs, rasterize=True, projection=ccrs.Robinson())"]⟩]⟩
set_option maxHeartbeats 4000000
set_option maxRecDepth 16000

/-- All nine notebooks of the repository, in repository order. -/
def repo : List Notebook :=
  [crossSections, healpix, remapping, spatialHashing, customTopology,
   dualMesh, subsetting, weightedMean, holoviz]

/-- The code cells of a notebook, in order. -/
def codeCells (nb : Notebook) : List Cell := nb.cells.filter (fun c => c.isCode)

/-- Every code cell of every notebook of the repository, in order. -/
def allCodeCells : List Cell := (repo.map codeCells).flatten

/-- Some code cell of the notebook contains the pattern. -/
def notebookMentions (nb : Notebook) (pat : String) : Bool :=
  (codeCells nb).any (fun c => cellHas pat c)

/-- The code cell with index `i` (0-based, among code cells) of the notebook
contains the pattern. -/
def cellAtHas (nb : Notebook) (i : Nat) (pat : String) : Bool :=
  match (codeCells nb).get? i with
  | some c => cellHas pat c
  | none => false

/-- The cell with index `i` (0-based, among all cells) of the notebook contains
the pattern. -/
def nbCellAtHas (nb : Notebook) (i : Nat) (pat : String) : Bool :=
  match nb.cells.get? i with
  | some c => cellHas pat c
  | none => false

/-- The cell with index `i` (0-based, among all cells) of the notebook is a
markdown cell. -/
def nbCellAtIsMarkdown (nb : Notebook) (i : Nat) : Bool :=
  match nb.cells.get? i with
  | some c => !c.isCode
  | none => false

/-- The cell downloads files over the network: it calls
`urllib.request.urlretrieve`, the only network-fetch API used anywhere in the
notebooks (the download loop of the remapping notebook). -/
def downloadsOverNetwork (c : Cell) : Bool :=
  cellHas "urllib.request.urlretrieve(" c

/-- The cell defines a raw data literal through `np.array(...)`. -/
def definesRawArrayLiteral (c : Cell) : Bool := cellHas "np.array(" c

/-- The cell contains at least one import statement. -/
def hasImportLine (c : Cell) : Bool := c.src.any (fun l => isImportLine l)

/-- Textual markers of a call into the external toolkit or the visualization
stack: the module aliases used by the notebooks (every toolkit object and the
toolkit alias itself start with ux; the others are xr, np, hv, gf, gv, ccrs,
geodf, plt, the gdf_ geodataframes) and the toolkit accessor methods (.plot,
.hvplot, .get_dual, .to_xarray, .remap, .subset, .cross_section). -/
def libraryPatterns : List String :=
  ["ux", ".plot", "hv.", "gf.", "xr.", "np.", "ccrs.", "gdf_", ".hvplot.",
   "geodf.", "plt.", "gv.", ".get_dual()", ".to_xarray(", ".remap.",
   ".subset.", ".cross_section."]

/-- The cell calls into the external library or plotting stack. -/
def callsLibrary (c : Cell) : Bool := libraryPatterns.any (fun p => cellHas p c)

/-- Every nonblank line of the cell is a top-level assignment. -/
def assignsOnly (c : Cell) : Bool :=
  c.src.all (fun l => l == "" || (assignTarget l).isSome)

/-- Last nonblank source line of a cell, if any. -/
def lastNonblank : List String → Option String
  | [] => none
  | l :: ls =>
    match lastNonblank ls with
    | some r => some r
    | none => if l == "" then none else some l

/-- The line starts with an identifier character in column 0. -/
def startsWithIdentChar (l : String) : Bool :=
  match l.toList with
  | [] => false
  | c :: _ => c.isAlpha || c == '_'

/-- The cell renders a plot or prints or displays a value: it calls a plotting
method or `print`, or its final nonblank line is a bare top-level expression,
which a notebook displays as the cell output. -/
def rendersOrPrints (c : Cell) : Bool :=
  cellHas ".plot" c || cellHas "print(" c || cellHas ".hvplot." c ||
  (match lastNonblank c.src with
   | some l => startsWithIdentChar l && (assignTarget l).isNone && !isImportLine l
   | none => false)

/-- Claim C1, formalized as stated: every code cell either only imports, or
calls a pre-existing library method and renders a plot or prints a value, and
no code cell downloads files over the network, defines raw data literals, or
merely assigns local variables without calling the library. -/
def C1_claimHolds : Bool :=
  allCodeCells.all (fun c =>
    (hasImportLine c || (callsLibrary c && rendersOrPrints c)) &&
    !downloadsOverNetwork c && !definesRawArrayLiteral c &&
    !(assignsOnly c && !callsLibrary c))

/-- Checks, cell by cell in order, whether some cell matching the write
pattern is followed by a strictly later cell matching the read pattern. -/
def writeThenRead (wpat rpat : String) : List Cell → Bool
  | [] => false
  | c :: rest =>
    (cellHas wpat c && rest.any (fun d => cellHas rpat d)) ||
      writeThenRead wpat rpat rest

/-- The notebook has a cell that writes `psi_healpix.nc` to disk via
`to_netcdf` and a strictly later cell that passes that same filename to a
call (reading it back). -/
def psiWriteReadBack (nb : Notebook) : Bool :=
  writeThenRead ".to_netcdf(\"psi_healpix.nc\")" "(\"psi_healpix.nc\")"
    (codeCells nb)

/-- Claim C3, formalized as stated: no notebook writes a file to disk that a
later cell reads back, and the parameter literals named by the specification
(zoom=3, lat, k=30, power=5) appear as arguments of library calls. -/
def C3_claimHolds : Bool :=
  repo.all (fun nb => !psiWriteReadBack nb) &&
  notebookMentions healpix "from_healpix(zoom=3" &&
  notebookMentions crossSections "constant_latitude(lat)" &&
  notebookMentions subsetting "k=30," &&
  notebookMentions remapping "power=5,"

/-- The cell contains a Python exception-handling construct. Any try/except or
try/finally statement contains a line with try and a colon, and a contextlib
suppressor needs the contextlib module; all four markers are checked. -/
def usesExceptionHandling (c : Cell) : Bool :=
  cellHas "try:" c || cellHas "except" c || cellHas "finally" c ||
  cellHas "contextlib" c

/-- Textual markers of threads, multiprocessing, asynchronous operations,
coroutines, cancellation or timeouts in Python: the threading and
multiprocessing modules, async/await syntax (which any coroutine or asyncio
use involves), and cancel/timeout calls or arguments. -/
def concurrencyPatterns : List String :=
  ["threading", "multiprocessing", "async", "await", "cancel", "timeout"]

/-- The cell uses threads, asynchronous operations, coroutines, cancellation
or timeouts. -/
def usesConcurrency (c : Cell) : Bool :=
  concurrencyPatterns.any (fun p => cellHas p c)

/-- A notebook other than the producing one mentions a file that a notebook of
this repository produces on disk: `psi_healpix.nc` is produced by the healpix
notebook, and the `oQU480`/`oQU120` mesh files are downloaded to disk by the
remapping notebook. -/
def readsOtherNotebookProduct : Bool :=
  (repo.filter (fun nb => nb.title != "healpix")).any
    (fun nb => notebookMentions nb "psi_healpix.nc") ||
  (repo.filter (fun nb => nb.title != "remapping")).any
    (fun nb => notebookMentions nb "oQU")

/-- The top-level names assigned by the cell. -/
def cellAssigns (c : Cell) : List String := c.src.filterMap assignTarget

/-- The cell assigns the given top-level name. -/
def assignsName (c : Cell) (n : String) : Bool := (cellAssigns c).contains n

/-- Record one more occurrence of a name in an association table of counts. -/
def bump (n : String) : List (String × Nat) → List (String × Nat)
  | [] => [(n, 1)]
  | (m, k) :: rest => if m == n then (m, k + 1) :: rest else (m, k) :: bump n rest

/-- For every top-level name, in how many of the given cells it is assigned
(each cell contributes at most once per name). -/
def assignTally : List Cell → List (String × Nat)
  | [] => []
  | c :: cs => ((cellAssigns c).dedup).foldl (fun a n => bump n a) (assignTally cs)

/-- The top-level names that the notebook assigns in two or more distinct code
cells, i.e. the global names it re-binds across cells. -/
def reboundNames (nb : Notebook) : List String :=
  ((assignTally (codeCells nb)).filter (fun p => decide (2 ≤ p.2))).map
    (fun p => p.1)

/-- Claim C5, formalized as stated: no notebook re-binds a top-level name
across cells (the formal reading of introducing no global mutable state), no
code cell uses concurrency constructs, and no notebook reads a file produced
by another notebook. -/
def C5_claimHolds : Bool :=
  repo.all (fun nb => (reboundNames nb).isEmpty) &&
  allCodeCells.all (fun c => !usesConcurrency c) &&
  !readsOtherNotebookProduct

/-- The top-level names that some notebook does re-bind across cells: the
custom-topology notebook re-binds its four topology inputs for the mixed-face
example, the subsetting notebook re-binds center_coord, the weighted-mean
notebook re-binds result and unweighted_result, and the holoviz notebook
re-binds plot_kwargs before each plot. -/
def allowedRebinds : List String :=
  ["node_lon", "node_lat", "face_node_connectivity", "ugrid_dims",
   "center_coord", "result", "unweighted_result", "plot_kwargs"]

/-- The node longitudes of the single-triangle example of the custom-topology
notebook: `node_lon = np.array([-20.0, 0.0, 20.0])`. -/
def node_lon : List ℚ := [-20, 0, 20]

/-- The node latitudes of the single-triangle example of the custom-topology
notebook: `node_lat = np.array([-10.0, 10.0, -10.0])`. -/
def node_lat : List ℚ := [-10, 10, -10]

/-- The face-node connectivity of the single-triangle example of the
custom-topology notebook: `np.array([[0, 1, 2]])`, one row of three node
indices. -/
def face_node_connectivity : List (List Nat) := [[0, 1, 2]]

/-- The latitude interval of the cross-sections notebook:
`lats = [-20, 20]`. -/
def lats : List ℤ := [-20, 20]

/-- The longitude interval of the cross-sections notebook:
`lons = [-25, 25]`. -/
def lons : List ℤ := [-25, 25]

/-- An embedded Python value, for arguments that are either booleans or
strings. -/
inductive PyVal where
  | pybool : Bool → PyVal
  | pystr : String → PyVal
deriving DecidableEq

/-- Python truthiness of an embedded value: a boolean is itself, a string is
truthy exactly when it is non-empty. -/
def pyTruthy : PyVal → Bool
  | .pybool b => b
  | .pystr s => !(s == "")

/-- The argument passed to `reconstruct` in the first `get_spatial_hash` call
of the spatial-hashing notebook: the string literal `"False"`. -/
def reconstruct_argument : PyVal := .pystr "False"

/-- The default for `reconstruct` documented by the same notebook: the boolean
`False`. -/
def documented_default : PyVal := .pybool false

/-- The `pixels_only` argument passed in the healpix notebook cell that
demonstrates a grid whose boundary variables are populated upfront:
`ux.Grid.from_healpix(zoom=3, pixels_only=False)`. -/
def healpix_upfront_call_arg : Bool := false

/-- The `pixels_only` value that the accompanying healpix prose says to use
when the boundaries should be computed upfront: it says the parameter can be
set to True in that case. -/
def healpix_prose_upfront_value : Bool := true

/-- Claim C1 (counterexample): the claim as stated is false on the code. The
first failing cell is the cross-sections cell `lat = 0; uxda_constant_lat =
uxds["psi"].cross_section.constant_latitude(lat)`, which calls the library but
neither renders nor prints, only assigns; further violations are the remapping
data cell, which downloads four mesh files over the network through
urllib.request.urlretrieve, and the custom-topology cells defining raw
np.array literals. -/
theorem C1_counterexample : C1_claimHolds = false := by decide

/-- Claim C1 (amended): every code cell either contains import statements, or
calls into the external toolkit or plotting stack, or renders or prints or
displays a value, or merely assigns top-level variables, or downloads input
files; exactly one code cell in the whole repository downloads files over the
network and it belongs to the remapping notebook, and exactly four code cells
define raw np.array literals, all in the custom-topology notebook. -/
theorem C1_amended :
    (allCodeCells.all (fun c =>
      hasImportLine c || callsLibrary c || rendersOrPrints c ||
      assignsOnly c || downloadsOverNetwork c) = true) ∧
    (allCodeCells.filter (fun c => downloadsOverNetwork c)).length = 1 ∧
    ((codeCells remapping).any (fun c => downloadsOverNetwork c) = true) ∧
    (allCodeCells.filter (fun c => definesRawArrayLiteral c)).length = 4 ∧
    ((allCodeCells.filter (fun c => definesRawArrayLiteral c)).all
      (fun c => (codeCells customTopology).contains c) = true) := by decide

/-- Claim C2: for each capability the specification enumerates, at least one
code cell of the corresponding notebook invokes the matching external-library
method: constant-latitude cross-sections, HEALPix grid construction and
loading, weighted means, geodataframe conversion, nearest-neighbor and
inverse-distance-weighted remapping, spatial-hash construction and query,
custom topology ingestion, bounding-box, bounding-circle and nearest-neighbor
subsetting, and dual-mesh construction. -/
theorem C2_capabilities :
    notebookMentions crossSections ".cross_section.constant_latitude(" = true ∧
    notebookMentions healpix "ux.Grid.from_healpix(" = true ∧
    notebookMentions healpix "ux.UxDataset.from_healpix(" = true ∧
    notebookMentions weightedMean ".weighted_mean()" = true ∧
    notebookMentions holoviz ".to_geodataframe()" = true ∧
    notebookMentions healpix ".remap.nearest_neighbor(" = true ∧
    notebookMentions remapping ".remap.nearest_neighbor(" = true ∧
    notebookMentions remapping ".remap.inverse_distance_weighted(" = true ∧
    notebookMentions spatialHashing ".get_spatial_hash(" = true ∧
    notebookMentions spatialHashing ".get_spatial_hash().query(" = true ∧
    notebookMentions customTopology "ux.Grid.from_topology(" = true ∧
    notebookMentions subsetting ".subset.bounding_box(" = true ∧
    notebookMentions subsetting ".subset.bounding_circle(" = true ∧
    notebookMentions subsetting ".subset.nearest_neighbor(" = true ∧
    notebookMentions dualMesh ".get_dual()" = true := by decide

/-- Claim C3 (counterexample): the claim as stated is false on the code: the
healpix notebook writes `psi_healpix.nc` to disk with `to_netcdf` and two
strictly later cells read that file back. -/
theorem C3_counterexample : C3_claimHolds = false := by decide

/-- Claim C3 (amended): the healpix notebook does write `psi_healpix.nc` and
read it back in later cells, and the remapping notebook downloads mesh files
to disk that a later cell opens; no other notebook writes files to disk
(neither via to_netcdf nor via a network download), and the parameter literals
zoom=3, lat, k=30 and power=5 appear as arguments of library calls. -/
theorem C3_amended :
    psiWriteReadBack healpix = true ∧
    ((repo.filter (fun nb => nb.title != "healpix")).all
      (fun nb => (codeCells nb).all (fun c => !cellHas ".to_netcdf(" c)) = true) ∧
    ((repo.filter (fun nb => nb.title != "remapping")).all
      (fun nb => (codeCells nb).all (fun c => !downloadsOverNetwork c)) = true) ∧
    writeThenRead "urllib.request.urlretrieve(" "file_path_dict"
      (codeCells remapping) = true ∧
    notebookMentions healpix "from_healpix(zoom=3" = true ∧
    notebookMentions crossSections "constant_latitude(lat)" = true ∧
    notebookMentions subsetting "k=30," = true ∧
    notebookMentions remapping "power=5," = true := by decide

/-- Claim C4: no code cell of any notebook contains an exception-handling
construct (try, except, finally, or a contextlib suppressor), so exceptions
raised by the external library or plotting stack propagate uncaught. -/
theorem C4_no_error_handling :
    allCodeCells.all (fun c => !usesExceptionHandling c) = true := by decide

/-- Claim C5 (counterexample): the claim as stated is false on the code: the
custom-topology notebook re-binds the top-level names node_lon, node_lat,
face_node_connectivity and ugrid_dims in later cells, so the notebooks do
introduce global mutable state in the form of cross-cell re-bindings; the
holoviz notebook similarly re-binds plot_kwargs seven times. -/
theorem C5_counterexample : C5_claimHolds = false := by decide

/-- Claim C5 (amended): no code cell uses threads, multiprocessing,
asynchronous operations, coroutines, cancellation or timeouts; no notebook
mentions a file produced on disk by another notebook; and the only global
mutable state the notebooks introduce is the re-binding, across cells, of the
eight top-level tutorial variables listed in allowedRebinds, witnessed by
node_lon in the custom-topology notebook and plot_kwargs in the holoviz
notebook. -/
theorem C5_amended :
    (allCodeCells.all (fun c => !usesConcurrency c) = true) ∧
    readsOtherNotebookProduct = false ∧
    (repo.all (fun nb =>
      (reboundNames nb).all (fun n => allowedRebinds.contains n)) = true) ∧
    ("node_lon" ∈ reboundNames customTopology) ∧
    ("plot_kwargs" ∈ reboundNames holoviz) := by decide

/-- Claim C7: the single-triangle example of the custom-topology notebook
consists exactly of three node longitudes, three node latitudes, and a
face-node connectivity of one row of three valid node indices, which the next
code cell passes unchanged (by name, with no intervening re-assignment) to
ux.Grid.from_topology; no code cell of any notebook defines a class or a
function, so the notebooks introduce no data-model type of their own. -/
theorem C7_triangle_topology :
    node_lon.length = 3 ∧ node_lat.length = 3 ∧
    face_node_connectivity = [[0, 1, 2]] ∧
    face_node_connectivity.length = 1 ∧
    (face_node_connectivity.all (fun row =>
      row.length == 3 && row.all (fun i => decide (i < node_lon.length))) = true) ∧
    cellAtHas customTopology 1 "node_lon = np.array([-20.0, 0.0, 20.0])" = true ∧
    cellAtHas customTopology 1 "node_lat = np.array([-10.0, 10.0, -10.0])" = true ∧
    cellAtHas customTopology 1 "face_node_connectivity = np.array(" = true ∧
    cellAtHas customTopology 1 "[0, 1, 2]," = true ∧
    cellAtHas customTopology 2 "uxgrid_tri = ux.Grid.from_topology(" = true ∧
    cellAtHas customTopology 2
      "node_lon=node_lon, node_lat=node_lat, face_node_connectivity=face_node_connectivity"
      = true ∧
    (((codeCells customTopology).take 2).filter
      (fun c => assignsName c "node_lon")).length = 1 ∧
    (((codeCells customTopology).take 2).filter
      (fun c => assignsName c "node_lat")).length = 1 ∧
    (((codeCells customTopology).take 2).filter
      (fun c => assignsName c "face_node_connectivity")).length = 1 ∧
    (allCodeCells.all
      (fun c => !(cellHas "class " c || cellHas "def " c)) = true) := by decide

/-- Claim C8: in the constant-longitude-interval example of the cross-sections
notebook, the argument actually passed to
cross_section.constant_longitude_interval is the variable lats (bound once, to
[-20, 20]) and not the variable lons (bound once, to [-25, 25]) defined in the
same cell, while the following plot cell interpolates lons[0] and lons[1],
i.e. -25 and 25, into its title. -/
theorem C8_interval_argument_swap :
    cellAtHas crossSections 7 "lats = [-20, 20]" = true ∧
    cellAtHas crossSections 9 "lons = [-25, 25]" = true ∧
    cellAtHas crossSections 9
      "uxda_constant_lon_interval = uxds[\"psi\"].cross_section.constant_longitude_interval(lats)"
      = true ∧
    cellAtHas crossSections 9 "constant_longitude_interval(lons)" = false ∧
    cellAtHas crossSections 10
      "Cross Section between \x7blons[0]\x7d and \x7blons[1]\x7d degrees longitude"
      = true ∧
    ((codeCells crossSections).filter
      (fun c => assignsName c "lats")).length = 1 ∧
    ((codeCells crossSections).filter
      (fun c => assignsName c "lons")).length = 1 ∧
    lats = [-20, 20] ∧ lons = [-25, 25] ∧
    (lats == lons) = false ∧
    lats.get? 0 = some (-20) ∧ lats.get? 1 = some 20 ∧
    lons.get? 0 = some (-25) ∧ lons.get? 1 = some 25 := by decide

/-- Claim C9: the first get_spatial_hash call of the spatial-hashing notebook
passes the string literal "False" as the reconstruct argument, while the
documentation cell of the same notebook describes reconstruct as a bool whose
default is the boolean False; the string "False" is truthy in Python and is
not equal to that documented boolean default. -/
theorem C9_reconstruct_string_argument :
    nbCellAtIsMarkdown spatialHashing 4 = true ∧
    nbCellAtHas spatialHashing 4 "is a bool variable" = true ∧
    nbCellAtHas spatialHashing 4
      "The default parameter is \x60False\x60." = true ∧
    cellAtHas spatialHashing 2 "reconstruct=\"False\"," = true ∧
    reconstruct_argument = PyVal.pystr "False" ∧
    documented_default = PyVal.pybool false ∧
    (reconstruct_argument == documented_default) = false ∧
    pyTruthy reconstruct_argument = true ∧
    pyTruthy documented_default = false := by decide

/-- Claim C10: in the healpix notebook, the markdown cell describing the
pixels_only parameter says it can be set to True if you require the boundaries
to be computed upfront, yet the immediately following code cell, which
demonstrates boundary variables computed upfront, passes pixels_only=False,
and the cell demonstrating on-demand construction of face_node_connectivity
passes pixels_only=True; so the code associates boundaries-upfront with False,
the opposite of the prose. -/
theorem C10_pixels_only_mismatch :
    nbCellAtIsMarkdown healpix 5 = true ∧
    nbCellAtHas healpix 5
      "can be set to \x60\x60True\x60\x60 if you require the boundaries to be computed upfront"
      = true ∧
    nbCellAtHas healpix 6 "ux.Grid.from_healpix(zoom=3, pixels_only=False)" = true ∧
    cellAtHas healpix 2 "ux.Grid.from_healpix(zoom=3, pixels_only=False)" = true ∧
    cellAtHas healpix 3
      "ux.Grid.from_healpix(zoom=3, pixels_only=True).face_node_connectivity"
      = true ∧
    healpix_upfront_call_arg = false ∧
    healpix_prose_upfront_value = true ∧
    (healpix_upfront_call_arg == healpix_prose_upfront_value) = false := by decide

end UxNb
